import Mathlib

/-!
Verification of the embed-cache-classify pipeline notebooks.

The development shallowly embeds the two notebooks of the repository:
the fine-food-reviews embedding pipeline (load, combine, subsample by
token count, embed, persist) and the transaction-classification
notebook (prompt substitution, completion requests, fine-tune class
check, train/test split).  External collaborators (the tokenizer, the
embedding/completion provider, the pandas Series printer, the PRNG
permutation behind a random seed) are parameters of the definitions:
the code under verification never inspects their output, it only
threads it through.
-/

namespace Cookbook

/-! ### Python string primitives used by the notebooks -/

/-- The whitespace characters removed by Python's `str.strip()` (and by
pandas `.str.strip()`): space, tab, newline, carriage return, vertical
tab, form feed. -/
def isPySpace (c : Char) : Bool :=
  c = ' ' || c = '\t' || c = '\n' || c = '\r' || c = '\x0b' || c = '\x0c'

/-- Python `s.strip()`: drop leading and trailing whitespace. -/
def pyStrip (s : String) : String :=
  String.mk (((s.data.dropWhile isPySpace).reverse.dropWhile isPySpace).reverse)

/-- One step of Python `str.replace` for a nonempty pattern: scan left to
right, replace each non-overlapping occurrence.  `fuel` bounds the
recursion; it is adequate whenever `fuel` is at least the length of the
scanned list, which is how `pyReplace` instantiates it. -/
def replFuel (pat rep : List Char) : Nat → List Char → List Char
  | _, [] => []
  | 0, l => l
  | fuel + 1, c :: rest =>
    if pat.isPrefixOf (c :: rest) then
      rep ++ replFuel pat rep fuel (rest.drop (pat.length - 1))
    else
      c :: replFuel pat rep fuel rest

/-- Python `str.replace` with an empty pattern inserts the replacement
before every character and at the end. -/
def interleave (rep : List Char) : List Char → List Char
  | [] => rep
  | c :: rest => rep ++ c :: interleave rep rest

/-- Python `s.replace(pat, rep)`: every non-overlapping occurrence of
`pat` in `s`, scanned left to right, is replaced by `rep`. -/
def pyReplace (s pat rep : String) : String :=
  match pat.data with
  | [] => String.mk (interleave rep.data s.data)
  | _ :: _ => String.mk (replFuel pat.data rep.data s.data.length s.data)

/-! ### Data model of the reviews notebook

The input CSV has columns Time, ProductId, UserId, Score, Summary, Text
(after the column selection `df[[...]]`).  `df.dropna()` keeps only the
rows where every field is present, so the raw row carries `Option`
fields and the loaded row carries plain ones. -/

structure RawReview where
  Time : Option Int
  ProductId : Option String
  UserId : Option String
  Score : Option Int
  Summary : Option String
  Text : Option String
deriving DecidableEq

structure ReviewRow where
  Time : Int
  ProductId : String
  UserId : String
  Score : Int
  Summary : String
  Text : String
deriving DecidableEq

/-- A review row together with the derived `combined` column. -/
structure ReviewC extends ReviewRow where
  combined : String
deriving DecidableEq

/-- A review row after `df.drop("Time", axis=1)`. -/
structure ReviewNoTime where
  ProductId : String
  UserId : String
  Score : Int
  Summary : String
  Text : String
  combined : String
deriving DecidableEq

/-- A row with the derived `n_tokens` column. -/
structure ReviewTok extends ReviewNoTime where
  n_tokens : Nat
deriving DecidableEq

/-- A row with the derived `embedding` column; the vector type is owned
by the external provider and kept abstract. -/
structure ReviewEmb (α : Type) extends ReviewTok where
  embedding : α
deriving DecidableEq

/-- Model of `df.dropna()` on one row: keep it only if every column is present. -/
def rawToRow (r : RawReview) : Option ReviewRow :=
  match r.Time, r.ProductId, r.UserId, r.Score, r.Summary, r.Text with
  | some t, some p, some u, some sc, some su, some te => some ⟨t, p, u, sc, su, te⟩
  | _, _, _, _, _, _ => none

/-- Model of `df = df.dropna()`. -/
def dropna (df : List RawReview) : List ReviewRow :=
  df.filterMap rawToRow

/-- The derived combined text of one review:
`"Title: " + df.Summary.str.strip() + "; Content: " + df.Text.str.strip()`. -/
def reviewCombined (r : ReviewRow) : String :=
  "Title: " ++ pyStrip r.Summary ++ "; Content: " ++ pyStrip r.Text

/-- Model of `df["combined"] = ...` on the whole frame. -/
def addCombined (df : List ReviewRow) : List ReviewC :=
  df.map (fun r => ⟨r, reviewCombined r⟩)

/-- The load cell: select columns, drop incomplete rows, derive
`combined`. -/
def load_dataset (raw : List RawReview) : List ReviewC :=
  addCombined (dropna raw)

/-- Model parameters cell. -/
def embedding_model : String := "text-embedding-ada-002"

def max_tokens : Nat := 8000

def top_n : Nat := 1000

/-- pandas `df.tail(n)`: the last `n` rows. -/
def tailN (n : Nat) (l : List α) : List α :=
  l.drop (l.length - n)

/-- Insert one row into a list already sorted ascending by `Time`. -/
def insertByTime (r : ReviewC) : List ReviewC → List ReviewC
  | [] => [r]
  | x :: xs => if r.Time ≤ x.Time then r :: x :: xs else x :: insertByTime r xs

/-- Model of `df.sort_values("Time")`: sort ascending by the `Time` column
(insertion sort; the claims do not depend on the tie order of the
library's quicksort). -/
def sortByTime : List ReviewC → List ReviewC
  | [] => []
  | x :: xs => insertByTime x (sortByTime xs)

/-- Model of `df.drop("Time", axis=1)` on one row. -/
def dropTime (r : ReviewC) : ReviewNoTime :=
  ⟨r.ProductId, r.UserId, r.Score, r.Summary, r.Text, r.combined⟩

/-- Model of `df["n_tokens"] = df.combined.apply(lambda x: len(encoding.encode(x)))`;
the tokenizer `encoding.encode` is external and passed as a parameter. -/
def addTokens (encode : String → List Nat) (df : List ReviewNoTime) : List ReviewTok :=
  df.map (fun r => ⟨r, (encode r.combined).length⟩)

/-- The rows of the subsampling cell that survive the token filter,
before the final `tail(top_n)`. -/
def keptRows (encode : String → List Nat) (df : List ReviewC) : List ReviewTok :=
  (addTokens encode ((tailN (top_n * 2) (sortByTime df)).map dropTime)).filter
    (fun r => r.n_tokens ≤ max_tokens)

/-- The subsampling cell: sort by Time, keep the last `top_n * 2` rows,
drop the Time column, derive `n_tokens`, keep rows within `max_tokens`,
keep the last `top_n` of those. -/
def subsampleStep (encode : String → List Nat) (df : List ReviewC) : List ReviewTok :=
  tailN top_n (keptRows encode df)

/-! ### The embedding cell and the persisted CSV -/

/-- One run of the embedding cell: `out` is the frame after
`df["embedding"] = df.combined.apply(lambda x: get_embedding(x,
engine=embedding_model))` and `calls` records the arguments of every
request the run issues to the external provider, in row order. -/
structure EmbedRun (α : Type) where
  out : List (ReviewEmb α)
  calls : List (String × String)
deriving DecidableEq

/-- The embedding cell.  `get_embedding text engine` is the external
provider; the cell calls it once per row, unconditionally. -/
def embedStep (get_embedding : String → String → α) (df : List ReviewTok) : EmbedRun α :=
  ⟨df.map (fun r => ⟨r, get_embedding r.combined embedding_model⟩),
   df.map (fun r => (r.combined, embedding_model))⟩

/-- Forget the embedding column (what a reader of the persisted CSV
recomputing from the text columns would start from). -/
def forgetEmbedding (r : ReviewEmb α) : ReviewTok :=
  r.toReviewTok

/-- Loading, subsampling and embedding chained, as the notebook runs
them top to bottom. -/
def full_pipeline (encode : String → List Nat) (get_embedding : String → String → α)
    (raw : List RawReview) : EmbedRun α :=
  embedStep get_embedding (subsampleStep encode (load_dataset raw))

/-- The columns of the loaded frame, in order
(`df[["Time", "ProductId", "UserId", "Score", "Summary", "Text"]]`). -/
def input_columns : List String :=
  ["Time", "ProductId", "UserId", "Score", "Summary", "Text"]

/-- The columns of the frame the embedding cell persists with
`df.to_csv`: Time was dropped by the subsampling cell, and `combined`,
`n_tokens` and `embedding` were derived. -/
def output_columns : List String :=
  ["ProductId", "UserId", "Score", "Summary", "Text", "combined", "n_tokens", "embedding"]

/-- The cells of one persisted row; the embedding vector is serialized
to text by the external writer `serialize`. -/
def rowCells (serialize : α → String) (r : ReviewEmb α) : List String :=
  [r.ProductId, r.UserId, toString r.Score, r.Summary, r.Text, r.combined,
   toString r.n_tokens, serialize r.embedding]

/-- Model of `df.to_csv(...)`: a header line followed by one line per row. -/
def to_csv (serialize : α → String) (df : List (ReviewEmb α)) : List (List String) :=
  output_columns :: df.map (rowCells serialize)

/-! ### Data model of the transactions notebook -/

/-- One transaction of the Library of Scotland dataset; the third field
models the `Transaction value` column (in GBP). -/
structure TransRow where
  Supplier : String
  Description : String
  TransactionValue : Int
deriving DecidableEq

/-- The combined-text cell of the transactions notebook:
`df["combined"] = "Supplier: " + df["Supplier"].str.strip()
+ "; Description: " + df["Description"].str.strip() + "; Value: "
+ str(df["Transaction value"]).strip()`.
`str(...)` is applied to the whole value column (a pandas Series), not
to each row's value; pandas broadcasts the resulting single string onto
every row.  The Series printer is external and passed as
`seriesToString`. -/
def transCombined (seriesToString : List Int → String) (df : List TransRow) : List String :=
  let valueStr := pyStrip (seriesToString (df.map (fun r => r.TransactionValue)))
  df.map (fun r =>
    "Supplier: " ++ pyStrip r.Supplier ++ "; Description: " ++ pyStrip r.Description ++
      "; Value: " ++ valueStr)

/-! ### Completion requests and classification -/

def COMPLETIONS_MODEL : String := "text-davinci-002"

structure CompletionChoice where
  text : String
deriving DecidableEq

structure CompletionResponse where
  choices : List CompletionChoice
deriving DecidableEq

/-- The arguments `request_completion` passes to
`openai.Completion.create`. -/
structure CompletionParams where
  prompt : String
  temperature : Nat
  max_tokens : Nat
  top_p : Nat
  frequency_penalty : Nat
  presence_penalty : Nat
  model : String
deriving DecidableEq

/-- Model of `request_completion(prompt)`: one blocking call to the external
completion endpoint `create`, with the fixed sampling parameters of the
notebook.  A provider failure is an `Except.error` that the caller does
not handle. -/
def request_completion (create : CompletionParams → Except String CompletionResponse)
    (prompt : String) : Except String CompletionResponse :=
  create ⟨prompt, 0, 5, 1, 0, 0, COMPLETIONS_MODEL⟩

/-- The three sequential `prompt.replace(...)` lines of
`classify_transaction`. -/
def substitutePrompt (prompt : String) (transaction : TransRow) : String :=
  pyReplace
    (pyReplace (pyReplace prompt "SUPPLIER_NAME" transaction.Supplier)
      "DESCRIPTION_TEXT" transaction.Description)
    "TRANSACTION_VALUE" (toString transaction.TransactionValue)

/-- Model of `classify_transaction(transaction, prompt)`: substitute the three
placeholders, request a completion, take
`['choices'][0]['text'].replace('\n','')`.  Indexing an empty choice
list raises, and a provider error propagates unmodified. -/
def classify_transaction (create : CompletionParams → Except String CompletionResponse)
    (transaction : TransRow) (prompt : String) : Except String String :=
  match request_completion create (substitutePrompt prompt transaction) with
  | Except.error e => Except.error e
  | Except.ok resp =>
    match resp.choices with
    | [] => Except.error "IndexError: list index out of range"
    | choice :: _ => Except.ok (pyReplace choice.text "\n" "")

/-- Model of `test_transactions.apply(lambda x: classify_transaction(x, prompt),
axis=1)`: classify each row in order; the first raised error halts the
batch and propagates. -/
def classifyBatch (create : CompletionParams → Except String CompletionResponse)
    (prompt : String) : List TransRow → Except String (List String)
  | [] => Except.ok []
  | t :: ts =>
    match classify_transaction create t prompt with
    | Except.error e => Except.error e
    | Except.ok c =>
      match classifyBatch create prompt ts with
      | Except.error e => Except.error e
      | Except.ok cs => Except.ok (c :: cs)

/-! ### The fine-tune class check -/

/-- One line of a prepared `.jsonl` file. -/
structure FinetuneRecord where
  prompt : String
  completion : String
deriving DecidableEq

/-- Model of `check_finetune_classes(train_file, valid_file)`: collect the set of
`completion` values of each file and compare the sizes of the two sets;
the returned string is what the function prints last. -/
def check_finetune_classes (train_file valid_file : List FinetuneRecord) : String :=
  let train_classes := (train_file.map (fun r => r.completion)).toFinset
  let valid_classes := (valid_file.map (fun r => r.completion)).toFinset
  if train_classes.card = valid_classes.card then "All good"
  else "Classes do not match, please prepare data again"

/-! ### The train/test split -/

/-- sklearn's test-partition size for `test_size=0.2`:
`ceil(0.2 * n)`. -/
def n_test_size (n : Nat) : Nat := (n + 4) / 5

/-- Reorder `rows` by a list of indices (the permutation the seeded PRNG
produces). -/
def shuffleBy (perm : List Nat) (rows : List α) : List α :=
  perm.filterMap (fun i => rows.get? i)

/-- Model of `train_test_split(rows, test_size=0.2, random_state=42)`: shuffle by
the PRNG permutation `perm` (the seed fixes `perm` but its value lives
in the external PRNG), then the first `n_test` shuffled rows form the
test partition and the remaining rows the train partition.  Returns
`(train, test)`. -/
def train_test_split (perm : List Nat) (rows : List α) : List α × List α :=
  let nt := n_test_size rows.length
  let shuffled := shuffleBy perm rows
  (shuffled.drop nt, shuffled.take nt)

/-! ### Concrete instances used by witnesses and counterexamples -/

/-- A tokenizer model: one token per character. -/
def encode0 : String → List Nat := fun s => List.replicate s.data.length 0

/-- An embedding-provider model returning a fixed vector. -/
def providerEmb : String → String → List Int := fun _ _ => [0]

/-- A serializer model for embedding vectors. -/
def serVec : List Int → String := fun v => toString v.length

def raw0 : List RawReview := [⟨some 1, some "p", some "u", some 5, some "s", some "t"⟩]

def rvc0 : ReviewC := ⟨⟨1, "p", "u", 5, "s", "t"⟩, "x"⟩

def rvtok0 : ReviewTok := ⟨⟨"p", "u", 5, "s", "t", "x"⟩, 1⟩

def remb0 : ReviewEmb (List Int) := ⟨⟨⟨"p", "u", 5, "s", "t", "Title: s; Content: t"⟩, 20⟩, [0]⟩

def tok0 : ReviewTok := ⟨⟨"p", "u", 5, "s", "t", "Title: s; Content: t"⟩, 4⟩

/-- Two transactions with equal text fields and different values. -/
def txPair : List TransRow := [⟨"A", "B", 1⟩, ⟨"A", "B", 2⟩]

def tx0 : TransRow := ⟨"S", "D", 42⟩

/-- A completion provider model that always fails. -/
def providerDown : CompletionParams → Except String CompletionResponse :=
  fun _ => Except.error "RateLimitError"

/-- A completion provider model that returns one fixed choice. -/
def providerOk : CompletionParams → Except String CompletionResponse :=
  fun _ => Except.ok ⟨[⟨"Building\nImprovement"⟩]⟩

/-- Concrete five-row dataset and permutation for the split. -/
def rows5 : List Nat := [10, 20, 30, 40, 50]

def perm5 : List Nat := [4, 2, 0, 3, 1]

/-! ### Helper lemmas -/

theorem tailN_length (n : Nat) (l : List α) : (tailN n l).length = min n l.length := by
  show (l.drop (l.length - n)).length = min n l.length
  rw [List.length_drop]
  omega

theorem tailN_subset (n : Nat) (l : List α) : tailN n l ⊆ l :=
  List.drop_subset _ _

theorem insertByTime_perm (r : ReviewC) (l : List ReviewC) :
    (insertByTime r l).Perm (r :: l) := by
  induction l with
  | nil => exact List.Perm.refl _
  | cons x xs ih =>
    show (if r.Time ≤ x.Time then r :: x :: xs else x :: insertByTime r xs).Perm (r :: x :: xs)
    split
    · exact List.Perm.refl _
    · exact (ih.cons x).trans (List.Perm.swap r x xs)

theorem sortByTime_perm (l : List ReviewC) : (sortByTime l).Perm l := by
  induction l with
  | nil => exact List.Perm.refl _
  | cons x xs ih => exact (insertByTime_perm x (sortByTime xs)).trans (ih.cons x)

theorem filterMap_get_range (l : List α) :
    (List.range l.length).filterMap (fun i => l.get? i) = l := by
  induction l with
  | nil => rfl
  | cons a t ih =>
    have hc : ((fun i => (a :: t).get? i) ∘ Nat.succ) = (fun i => t.get? i) := by
      funext i
      rfl
    simp only [List.length_cons, List.range_succ_eq_map, List.filterMap_cons,
      List.get?_cons_zero, List.filterMap_map, hc, ih]

theorem replFuel_single_eq_filter (c : Char) :
    ∀ (fuel : Nat) (l : List Char), l.length ≤ fuel →
      replFuel [c] [] fuel l = l.filter (fun d => d != c) := by
  intro fuel
  induction fuel with
  | zero =>
    intro l hl
    rw [List.length_eq_zero.mp (Nat.le_zero.mp hl)]
    rfl
  | succ n ih =>
    intro l hl
    cases l with
    | nil => rfl
    | cons d rest =>
      have hrest : rest.length ≤ n := by
        have := hl
        simp only [List.length_cons] at this
        omega
      by_cases h : c = d
      · subst h
        simp [replFuel, List.isPrefixOf, ih rest hrest, List.filter_cons]
      · simp [replFuel, List.isPrefixOf, h, ih rest hrest, List.filter_cons, bne,
          Ne.symm h]

theorem pyReplace_newline_eq_filter (s : String) :
    pyReplace s "\n" "" = String.mk (s.data.filter (fun d => d != '\n')) := by
  have h : pyReplace s "\n" "" = String.mk (replFuel ['\n'] [] s.data.length s.data) := rfl
  rw [h, replFuel_single_eq_filter '\n' s.data.length s.data (Nat.le_refl _)]

/-! ### Claim C1 -/

/-- Claim C1 (code bug, transactions half): the notebook computes the
Value part of the combined text with `str(df['Transaction value'])`
applied to the whole column, so every row receives the same Value
string no matter how the external Series printer renders the column;
two rows with equal text fields and different transaction values
therefore get identical combined strings, contradicting the claimed
per-row `'; Value: ' + str(row value)` concatenation (which the claim
states and the surrounding zero-shot cells implement per row). -/
theorem c1_value_column_divergence :
    ∀ seriesToString : List Int → String,
      (transCombined seriesToString txPair).get? 0 = (transCombined seriesToString txPair).get? 1 ∧
      ¬ (transCombined seriesToString txPair =
          ["Supplier: A; Description: B; Value: 1", "Supplier: A; Description: B; Value: 2"]) := by
  intro f
  refine ⟨rfl, ?_⟩
  intro h
  have h0 : (transCombined f txPair).get? 0 = some "Supplier: A; Description: B; Value: 1" := by
    rw [h]
    rfl
  have h1 : (transCombined f txPair).get? 1 = some "Supplier: A; Description: B; Value: 2" := by
    rw [h]
    rfl
  have hsame : (transCombined f txPair).get? 0 = (transCombined f txPair).get? 1 := rfl
  have e := (h0.symm.trans hsame).trans h1
  exact absurd e (by decide)

/-! ### Claim C2 -/

/-- Claim C2: every row surviving the subsampling cell has
`n_tokens ≤ max_tokens` (with `max_tokens = 8000`), and `n_tokens` is
the length of the tokenizer's encoding of the row's combined text; a
row whose token count exceeds the limit never appears in the output. -/
theorem c2_token_limit (encode : String → List Nat) (df : List ReviewC) :
    ∀ r ∈ subsampleStep encode df,
      r.n_tokens ≤ max_tokens ∧ r.n_tokens = (encode r.combined).length := by
  intro r hr
  have hr1 : r ∈ keptRows encode df := List.drop_subset _ _ hr
  have hr2 := List.mem_filter.mp hr1
  refine ⟨by simpa using hr2.2, ?_⟩
  rcases List.mem_map.mp hr2.1 with ⟨a, _, rfl⟩
  rfl

theorem c2_token_limit_witness :
    rvtok0 ∈ subsampleStep encode0 [rvc0] ∧
    rvtok0.n_tokens ≤ max_tokens ∧ rvtok0.n_tokens = (encode0 rvtok0.combined).length :=
  ⟨by decide, c2_token_limit encode0 [rvc0] rvtok0 (by decide)⟩

/-! ### Claim C5 -/

/-- Claim C5 counterexample: the embedding cell keeps no local cache.
Re-running it issues a fresh provider call for a text whose vector the
previous run already computed and persisted: the run's call list equals
the full row list and in particular is not empty, refuting "no new call
to the embedding provider for an already-cached text". -/
theorem c5_recompute_counterexample :
    (embedStep providerEmb [tok0]).calls = [(tok0.combined, embedding_model)] ∧
    (∃ r ∈ (embedStep providerEmb [tok0]).out, r.combined = tok0.combined) ∧
    ¬ (embedStep providerEmb [tok0]).calls = [] := by
  refine ⟨rfl, ⟨⟨tok0, providerEmb tok0.combined embedding_model⟩, by decide, rfl⟩, by decide⟩

/-- Claim C5 (amended): each run of the embedding cell calls the
provider once per row, unconditionally; with an unchanged provider
response function, re-running the cell over the rows reconstructed from
the persisted table produces a run identical to the first (identical
vectors), and the stored vector of every row is exactly the provider's
response for its combined text. -/
theorem c5_embed_recompute (α : Type) (get_embedding : String → String → α)
    (df : List ReviewTok) :
    (embedStep get_embedding df).calls = df.map (fun r => (r.combined, embedding_model)) ∧
    embedStep get_embedding ((embedStep get_embedding df).out.map forgetEmbedding) =
      embedStep get_embedding df ∧
    (embedStep get_embedding df).out.map (fun r => r.embedding) =
      df.map (fun r => get_embedding r.combined embedding_model) := by
  refine ⟨rfl, ?_, by simp [embedStep, List.map_map]⟩
  simp [embedStep, forgetEmbedding, List.map_map]

/-! ### Claim C8 -/

/-- Claim C8: `check_finetune_classes` answers "All good" exactly when
the numbers of distinct completion values of the two files agree; it
compares only cardinalities, so two files with different class sets of
equal size pass the check (second and third conjuncts). -/
theorem c8_check_finetune_classes_cardinality (train_file valid_file : List FinetuneRecord) :
    (check_finetune_classes train_file valid_file = "All good" ↔
      (train_file.map (fun r => r.completion)).toFinset.card =
        (valid_file.map (fun r => r.completion)).toFinset.card) ∧
    check_finetune_classes [⟨"p", "A"⟩] [⟨"q", "B"⟩] = "All good" ∧
    (([⟨"p", "A"⟩] : List FinetuneRecord).map (fun r => r.completion)).toFinset ≠
      (([⟨"q", "B"⟩] : List FinetuneRecord).map (fun r => r.completion)).toFinset := by
  refine ⟨?_, by decide, by decide⟩
  have hgoal : check_finetune_classes train_file valid_file =
      (if (train_file.map (fun r => r.completion)).toFinset.card =
          (valid_file.map (fun r => r.completion)).toFinset.card then "All good"
       else "Classes do not match, please prepare data again") := rfl
  rw [hgoal]
  split
  · exact iff_of_true rfl (by assumption)
  · exact iff_of_false (by decide) (by assumption)

/-! ### Claim C3 -/

/-- Claim C3 counterexample: on a three-row input the test partition
holds `ceil(0.2 * 3) = 1` row, which is not 20% of the rows; and on an
input with duplicate rows the two partitions are not disjoint (the
duplicated row lands on both sides). -/
theorem c3_twenty_percent_counterexample :
    ¬ (5 * (train_test_split [2, 0, 1] ([10, 20, 30] : List Nat)).2.length = 3) ∧
    ¬ (train_test_split [0, 1] ([7, 7] : List Nat)).1.Disjoint
        (train_test_split [0, 1] ([7, 7] : List Nat)).2 := by
  refine ⟨by decide, ?_⟩
  intro hdis
  have h1 : (7 : Nat) ∈ (train_test_split [0, 1] ([7, 7] : List Nat)).1 := by decide
  have h2 : (7 : Nat) ∈ (train_test_split [0, 1] ([7, 7] : List Nat)).2 := by decide
  exact hdis h1 h2

/-- Claim C3 (amended): for any permutation the seeded PRNG yields, the
concatenation of the train and test partitions is a permutation of the
input rows (their union as a multiset equals the input), the test
partition holds `ceil(0.2 * n)` rows — exactly 20% when the row count
is divisible by 5 — and the two partitions are disjoint whenever the
input rows are pairwise distinct. -/
theorem c3_split_partition (rows : List α) (perm : List Nat)
    (hperm : perm.Perm (List.range rows.length)) :
    ((train_test_split perm rows).1 ++ (train_test_split perm rows).2).Perm rows ∧
    (train_test_split perm rows).2.length = n_test_size rows.length ∧
    (rows.Nodup → (train_test_split perm rows).1.Disjoint (train_test_split perm rows).2) := by
  have hshuf : (shuffleBy perm rows).Perm rows := by
    have h := hperm.filterMap (fun i => rows.get? i)
    rw [filterMap_get_range] at h
    exact h
  have hsplit : (shuffleBy perm rows).take (n_test_size rows.length) ++
      (shuffleBy perm rows).drop (n_test_size rows.length) = shuffleBy perm rows :=
    List.take_append_drop _ _
  refine ⟨?_, ?_, ?_⟩
  · have h1 : ((shuffleBy perm rows).drop (n_test_size rows.length) ++
        (shuffleBy perm rows).take (n_test_size rows.length)).Perm
        ((shuffleBy perm rows).take (n_test_size rows.length) ++
          (shuffleBy perm rows).drop (n_test_size rows.length)) := List.perm_append_comm
    have h2 : ((shuffleBy perm rows).take (n_test_size rows.length) ++
        (shuffleBy perm rows).drop (n_test_size rows.length)).Perm rows := by
      rw [hsplit]
      exact hshuf
    exact h1.trans h2
  · show ((shuffleBy perm rows).take (n_test_size rows.length)).length = n_test_size rows.length
    rw [List.length_take, hshuf.length_eq]
    have hle : n_test_size rows.length ≤ rows.length := by
      unfold n_test_size
      omega
    omega
  · intro hnd
    have hshufnd : (shuffleBy perm rows).Nodup := hshuf.nodup_iff.mpr hnd
    rw [← hsplit] at hshufnd
    have hdis := (List.nodup_append.mp hshufnd).2.2
    exact fun a ha hb => hdis hb ha

theorem c3_split_partition_witness :
    ((train_test_split perm5 rows5).1 ++ (train_test_split perm5 rows5).2).Perm rows5 ∧
    (train_test_split perm5 rows5).2.length = n_test_size rows5.length ∧
    (train_test_split perm5 rows5).1.Disjoint (train_test_split perm5 rows5).2 := by
  have h := c3_split_partition rows5 perm5 (by decide)
  exact ⟨h.1, h.2.1, h.2.2 (by decide)⟩

theorem embedStep_out_mem {α : Type} (g : String → String → α) (df : List ReviewTok)
    (r : ReviewEmb α) (hr : r ∈ (embedStep g df).out) :
    ∃ t ∈ df, r = ⟨t, g t.combined embedding_model⟩ := by
  rcases List.mem_map.mp hr with ⟨t, ht, rfl⟩
  exact ⟨t, ht, rfl⟩

/-! ### Claim C4 -/

/-- Claim C4 counterexample: the loaded frame has a Time column, the
subsampling cell drops it, and the header of the persisted CSV does not
contain it — an input column is removed, contradicting the claim. -/
theorem c4_time_column_counterexample :
    "Time" ∈ input_columns ∧
    (to_csv serVec (full_pipeline encode0 providerEmb raw0).out).head? = some output_columns ∧
    "Time" ∉ output_columns :=
  ⟨by decide, rfl, by decide⟩

/-- Claim C4 (amended): the persisted table keeps every input column
except Time, whose column the subsampling cell drops, with per-row
values unchanged for every surviving row; the derived columns
`combined`, `n_tokens` and `embedding` are appended, the embedding
serialized to text by the external writer. -/
theorem c4_frame (α : Type) (encode : String → List Nat) (get_embedding : String → String → α)
    (serialize : α → String) (raw : List RawReview) :
    "Time" ∉ output_columns ∧
    to_csv serialize (full_pipeline encode get_embedding raw).out =
      output_columns :: (full_pipeline encode get_embedding raw).out.map (rowCells serialize) ∧
    ∀ r ∈ (full_pipeline encode get_embedding raw).out, ∃ r₀ ∈ dropna raw,
      r.ProductId = r₀.ProductId ∧ r.UserId = r₀.UserId ∧ r.Score = r₀.Score ∧
      r.Summary = r₀.Summary ∧ r.Text = r₀.Text ∧ r.combined = reviewCombined r₀ ∧
      r.n_tokens = (encode (reviewCombined r₀)).length ∧
      r.embedding = get_embedding (reviewCombined r₀) embedding_model := by
  refine ⟨by decide, rfl, ?_⟩
  intro r hr
  have hr0 : r ∈ (embedStep get_embedding (subsampleStep encode (load_dataset raw))).out := hr
  obtain ⟨t, ht, rfl⟩ := embedStep_out_mem get_embedding _ r hr0
  have ht1 : t ∈ keptRows encode (load_dataset raw) := List.drop_subset _ _ ht
  have ht2 := (List.mem_filter.mp ht1).1
  rcases List.mem_map.mp ht2 with ⟨nt, hnt, rfl⟩
  rcases List.mem_map.mp hnt with ⟨c, hc, rfl⟩
  have hc1 : c ∈ load_dataset raw :=
    (sortByTime_perm (load_dataset raw)).subset (List.drop_subset _ _ hc)
  rcases List.mem_map.mp hc1 with ⟨r₀, hr₀, rfl⟩
  exact ⟨r₀, hr₀, rfl, rfl, rfl, rfl, rfl, rfl, rfl, rfl⟩

theorem c4_frame_witness :
    remb0 ∈ (full_pipeline encode0 providerEmb raw0).out ∧
    ∃ r₀ ∈ dropna raw0,
      remb0.ProductId = r₀.ProductId ∧ remb0.UserId = r₀.UserId ∧ remb0.Score = r₀.Score ∧
      remb0.Summary = r₀.Summary ∧ remb0.Text = r₀.Text ∧
      remb0.combined = reviewCombined r₀ ∧
      remb0.n_tokens = (encode0 (reviewCombined r₀)).length ∧
      remb0.embedding = providerEmb (reviewCombined r₀) embedding_model :=
  ⟨by decide, (c4_frame (List Int) encode0 providerEmb serVec raw0).2.2 remb0 (by decide)⟩

/-! ### Claim C9 -/

/-- Claim C9: the subsampling cell yields at most `top_n = 1000` rows
and exactly `min top_n k` rows, where `k` counts the rows that pass the
token filter; those candidate rows are drawn only from the last
`top_n * 2 = 2000` rows of the Time-sorted frame (at most 2000 rows are
ever considered), and when fewer than `top_n` rows pass the filter the
output has exactly that smaller number of rows, hence fewer than
1000. -/
theorem c9_subsample_bounds (encode : String → List Nat) (df : List ReviewC) :
    (subsampleStep encode df).length ≤ top_n ∧
    (subsampleStep encode df).length = min top_n (keptRows encode df).length ∧
    subsampleStep encode df ⊆ keptRows encode df ∧
    (tailN (top_n * 2) (sortByTime df)).length ≤ top_n * 2 ∧
    keptRows encode df ⊆ addTokens encode ((tailN (top_n * 2) (sortByTime df)).map dropTime) ∧
    ((keptRows encode df).length < top_n →
      (subsampleStep encode df).length = (keptRows encode df).length ∧
      (subsampleStep encode df).length < top_n) := by
  have hmain : (subsampleStep encode df).length = min top_n (keptRows encode df).length :=
    tailN_length _ _
  refine ⟨?_, hmain, tailN_subset _ _, ?_, List.filter_subset' _, ?_⟩
  · rw [hmain]
    omega
  · rw [tailN_length]
    omega
  · intro hlt
    rw [hmain]
    omega

theorem c9_subsample_bounds_witness :
    (subsampleStep encode0 [rvc0]).length = (keptRows encode0 [rvc0]).length ∧
    (subsampleStep encode0 [rvc0]).length < top_n :=
  (c9_subsample_bounds encode0 [rvc0]).2.2.2.2.2 (by decide)

/-! ### Claim C7 -/

/-- Claim C7: an error returned by the external completion endpoint
propagates unmodified through `classify_transaction` (there is no
try/except, retry or fallback in the source), and through the batch
application: once a row's classification raises, the batch halts with
exactly that error, whatever rows follow. -/
theorem c7_errors_propagate (create : CompletionParams → Except String CompletionResponse)
    (t : TransRow) (prompt e : String)
    (h : create ⟨substitutePrompt prompt t, 0, 5, 1, 0, 0, COMPLETIONS_MODEL⟩ = Except.error e) :
    classify_transaction create t prompt = Except.error e ∧
    ∀ ts₁ ts₂ : List TransRow,
      (∀ t' ∈ ts₁, ∃ v, classify_transaction create t' prompt = Except.ok v) →
      classifyBatch create prompt (ts₁ ++ t :: ts₂) = Except.error e := by
  have h1 : classify_transaction create t prompt = Except.error e := by
    unfold classify_transaction request_completion
    rw [h]
  refine ⟨h1, ?_⟩
  intro ts₁ ts₂ hok
  induction ts₁ with
  | nil => simp [classifyBatch, h1]
  | cons a as ih =>
    rcases hok a (List.mem_cons_self a as) with ⟨v, hv⟩
    have ih' := ih (fun t' ht' => hok t' (List.mem_cons_of_mem a ht'))
    simp [classifyBatch, List.cons_append, hv, ih']

theorem c7_errors_propagate_witness :
    classify_transaction providerDown tx0 "P" = Except.error "RateLimitError" ∧
    classifyBatch providerDown "P" [tx0] = Except.error "RateLimitError" := by
  have h := c7_errors_propagate providerDown tx0 "P" "RateLimitError" rfl
  exact ⟨h.1, h.2 [] [] (fun t' ht' => absurd ht' (List.not_mem_nil t'))⟩

/-! ### Claim C10 -/

/-- Claim C10: when the endpoint answers with at least one choice,
`classify_transaction` returns the first choice's text with every
newline character removed (the result is the newline-free filter of
that text), and the prompt it sends is the template with the three
placeholder substrings replaced, every occurrence and in source order,
by the transaction's supplier, description and stringified value. -/
theorem c10_classify_transaction_spec
    (create : CompletionParams → Except String CompletionResponse)
    (t : TransRow) (prompt : String) (resp : CompletionResponse)
    (choice : CompletionChoice) (rest : List CompletionChoice)
    (hcreate : create ⟨substitutePrompt prompt t, 0, 5, 1, 0, 0, COMPLETIONS_MODEL⟩ =
      Except.ok resp)
    (hchoices : resp.choices = choice :: rest) :
    classify_transaction create t prompt =
      Except.ok (String.mk (choice.text.data.filter (fun d => d != '\n'))) ∧
    (∀ ch ∈ (pyReplace choice.text "\n" "").data, ch ≠ '\n') ∧
    substitutePrompt prompt t =
      pyReplace (pyReplace (pyReplace prompt "SUPPLIER_NAME" t.Supplier)
        "DESCRIPTION_TEXT" t.Description) "TRANSACTION_VALUE" (toString t.TransactionValue) := by
  refine ⟨?_, ?_, rfl⟩
  · have hstep : classify_transaction create t prompt =
        (match resp.choices with
         | [] => Except.error "IndexError: list index out of range"
         | choice :: _ => Except.ok (pyReplace choice.text "\n" "")) := by
      unfold classify_transaction request_completion
      rw [hcreate]
    rw [hstep, hchoices]
    show Except.ok (pyReplace choice.text "\n" "") = _
    rw [pyReplace_newline_eq_filter]
  · intro ch hch
    rw [pyReplace_newline_eq_filter] at hch
    have hmem : ch ∈ choice.text.data.filter (fun d => d != '\n') := hch
    have := List.of_mem_filter hmem
    simpa using this

theorem c10_classify_transaction_spec_witness :
    classify_transaction providerOk tx0 "Supplier: SUPPLIER_NAME" =
      Except.ok "BuildingImprovement" := by
  have h := c10_classify_transaction_spec providerOk tx0 "Supplier: SUPPLIER_NAME"
    ⟨[⟨"Building\nImprovement"⟩]⟩ ⟨"Building\nImprovement"⟩ [] rfl rfl
  exact h.1.trans (congrArg Except.ok (by decide))

end Cookbook
